import Mathlib

/-!
Verification of the outside-interaction detector (`useInteractOutside`).

The repository ships the test suite for `useInteractOutside`
(src/unnamed/part_000); the hook implementation itself is not among the
provided source files, so the detector below is modelled from the
specification (spec.md §3–§4) and validated against the behaviours the
test file demands.
-/

/-- Modelled from the spec: the six low-level event type tags the detector
subscribes to, across the three event families (§3 EventFamily,
§4.1 press/release handling).  The implementation file defining the
handlers is missing from src/; only its test file is present. -/
inductive EventType where
  | pointerdown
  | pointerup
  | mousedown
  | mouseup
  | touchstart
  | touchend
  deriving DecidableEq

/-- Modelled from the spec: a normalized low-level input event (§6): a
family/type tag, a target node (origin), a button index for pointer/mouse
events (`none` when the event carries no button field), and the document
context it was dispatched in.  Nodes and documents are identified by
numeric ids. -/
structure InputEvent where
  type : EventType
  target : Nat
  button : Option Nat
  doc : Nat
  deriving DecidableEq

/-- Modelled from the spec: the region handle (§3).  `nodes` lists the ids
of the region root and all of its descendants, so the descendant-or-self
containment test is list membership; `ownDoc` is the region's own
document and `frameDocs` is the ordered sequence of documents of embedded
sub-frames reachable from the region's document context (§4.1 Attachment,
§9: a pure function from region to an ordered sequence of root
contexts). -/
structure Region where
  nodes : List Nat
  ownDoc : Nat
  frameDocs : List Nat
  deriving DecidableEq

/-- Modelled from the spec: descendant-or-self containment test for the
region (§6). -/
def Region.containsNode (r : Region) (n : Nat) : Bool :=
  r.nodes.contains n

/-- Modelled from the spec: the documents whose roots the detector
subscribes to — the region's own document plus every reachable embedded
sub-document (§4.1 Attachment). -/
def Region.subscribedDocs (r : Region) : List Nat :=
  r.ownDoc :: r.frameDocs

/-- Modelled from the spec: detector configuration — the region and the
platform capability selecting the event family (§3 EventFamily: pointer
events supported means the Pointer family is used exclusively, otherwise
the Mouse and Touch families are both subscribed). -/
structure Config where
  region : Region
  supportsPointer : Bool
  deriving DecidableEq

/-- Modelled from the spec: the in-flight gesture state (§3 GestureState):
`wasPressedOutside` is `none` when no gesture is in flight, and the
short-lived marker `ignoreEmulatedMouseEvents` records that a `touchend`
was just handled so the next observed `mouseup` is its synthetic echo
(§4.1 cross-family duplicate suppression). -/
structure GestureState where
  wasPressedOutside : Option Bool
  ignoreEmulatedMouseEvents : Bool
  deriving DecidableEq

/-- Modelled from the spec: fresh detector state — no gesture in flight,
no suppression marker (§3 lifecycle, §4.1 disabled state: tracking starts
fresh). -/
def initState : GestureState :=
  { wasPressedOutside := none, ignoreEmulatedMouseEvents := false }

/-- Modelled from the spec: whether an event type belongs to the Pointer
family (§3 EventFamily). -/
def EventType.isPointerFamily : EventType → Bool
  | .pointerdown => true
  | .pointerup => true
  | _ => false

/-- Modelled from the spec: whether an event type is a touch event, which
has no button concept (§4.1 press handling step 1). -/
def EventType.isTouch : EventType → Bool
  | .touchstart => true
  | .touchend => true
  | _ => false

/-- Modelled from the spec: press event types (pointerdown / mousedown /
touchstart, §4.1 press handling). -/
def EventType.isPress : EventType → Bool
  | .pointerdown => true
  | .mousedown => true
  | .touchstart => true
  | _ => false

/-- Modelled from the spec: release event types (pointerup / mouseup /
touchend, §4.1 release handling). -/
def EventType.isRelease : EventType → Bool
  | .pointerup => true
  | .mouseup => true
  | .touchend => true
  | _ => false

/-- Modelled from the spec: the release type that completes a gesture
begun by the given press type (§8 scenario table pairs press and release
within one family). -/
def matchingRelease : EventType → EventType → Bool
  | .pointerdown, .pointerup => true
  | .mousedown, .mouseup => true
  | .touchstart, .touchend => true
  | _, _ => false

/-- Modelled from the spec: primary-button test (Glossary: the main/left
mouse button, or an event carrying no distinguishing alternate-button
flag — an absent button field counts as primary). -/
def isPrimaryButton : Option Nat → Bool
  | none => true
  | some b => b == 0

/-- Modelled from the spec: the button gate of press/release handling
step 1 — for pointer/mouse families only; touch has no button concept
(§4.1). -/
def buttonOk (t : EventType) (b : Option Nat) : Bool :=
  if t.isTouch then true else isPrimaryButton b

/-- Modelled from the spec: whether the detector's subscriptions deliver
events of this type — the active family is Pointer exactly when pointer
events are supported, else Mouse/Touch (§3 EventFamily). -/
def familyActive (cfg : Config) (t : EventType) : Bool :=
  if t.isPointerFamily then cfg.supportsPointer else !cfg.supportsPointer

/-- Modelled from the spec: handling of one delivered low-level event by
an attached detector (§4.1).  An event is ignored unless its document is
subscribed, its family is the active one, and its button passes the
primary-button gate.  A press records whether it originated outside the
region and never notifies.  A `mouseup` observed while the suppression
marker is active is the synthetic echo of a `touchend` and is ignored
apart from consuming the short-lived marker.  Any other release notifies
exactly when the tracked flag says the press was outside, passes the
release event itself to the callback, unconditionally clears the gesture
state, and (for `touchend`) sets the suppression marker.  The returned
option is the argument of the `onInteractOutside` callback invocation,
`none` when the callback is not invoked. -/
def handleEvent (cfg : Config) (s : GestureState) (e : InputEvent) :
    GestureState × Option InputEvent :=
  if !(cfg.region.subscribedDocs.contains e.doc) then (s, none)
  else if !(familyActive cfg e.type) then (s, none)
  else if !(buttonOk e.type e.button) then (s, none)
  else if e.type.isPress then
    ({ s with wasPressedOutside := some (!(cfg.region.containsNode e.target)) }, none)
  else if e.type == EventType.mouseup && s.ignoreEmulatedMouseEvents then
    ({ s with ignoreEmulatedMouseEvents := false }, none)
  else
    ({ wasPressedOutside := none,
       ignoreEmulatedMouseEvents :=
         if e.type == EventType.touchend then true else s.ignoreEmulatedMouseEvents },
     if s.wasPressedOutside == some true then some e else none)

/-- Modelled from the spec: sequential handling of a stream of delivered
events by an attached detector, collecting the callback invocations in
dispatch order (§5: single-threaded, one event handled to completion at a
time). -/
def processEvents (cfg : Config) (s : GestureState) :
    List InputEvent → GestureState × List InputEvent
  | [] => (s, [])
  | e :: es =>
    let r1 := handleEvent cfg s e
    let r2 := processEvents cfg r1.1 es
    (r2.1, r1.2.toList ++ r2.2)

/-- Modelled from the spec: a detector instance — the enabled flag gating
listener attachment, and the gesture state (§3 Configuration, §4.1
disabled state). -/
structure Detector where
  enabled : Bool
  state : GestureState
  deriving DecidableEq

/-- Modelled from the spec: the things that can happen to a detector over
its lifetime — the enabled flag is toggled, or a low-level event is
dispatched at a document root (§4.1 attachment / disabled state). -/
inductive DetectorAction where
  | setEnabled (b : Bool)
  | dispatch (e : InputEvent)
  deriving DecidableEq

/-- Modelled from the spec: one lifecycle step (§4.1 disabled state).
While disabled no listeners are attached, so a dispatched event is not
processed at all.  Toggling the enabled flag detaches or attaches the
listeners: state is discarded on deactivation and tracking starts fresh
on activation (§5: no in-flight gesture survives deactivation). -/
def stepAction (cfg : Config) (d : Detector) : DetectorAction → Detector × Option InputEvent
  | .setEnabled b =>
    if b == d.enabled then (d, none)
    else ({ enabled := b, state := initState }, none)
  | .dispatch e =>
    if d.enabled then
      let r := handleEvent cfg d.state e
      ({ enabled := true, state := r.1 }, r.2)
    else (d, none)

/-- Modelled from the spec: running a detector through a sequence of
lifecycle actions, collecting the callback invocations in order. -/
def runActions (cfg : Config) (d : Detector) :
    List DetectorAction → Detector × List InputEvent
  | [] => (d, [])
  | a :: as =>
    let r1 := stepAction cfg d a
    let r2 := runActions cfg r1.1 as
    (r2.1, r1.2.toList ++ r2.2)

/-- Modelled from the spec: an event qualifies as a press when its
document is subscribed, its family is active, its button passes the gate
and its type is a press type (§4.1 press handling). -/
def isQualifyingPress (cfg : Config) (e : InputEvent) : Bool :=
  cfg.region.subscribedDocs.contains e.doc &&
    familyActive cfg e.type &&
    buttonOk e.type e.button &&
    e.type.isPress

/-- Modelled from the spec: an event qualifies as a release when its
document is subscribed, its family is active, its button passes the gate,
its type is a release type, and it is not the suppressed synthetic echo
of a touchend (§4.1 release handling and cross-family duplicate
suppression). -/
def isQualifyingRelease (cfg : Config) (s : GestureState) (e : InputEvent) : Bool :=
  cfg.region.subscribedDocs.contains e.doc &&
    familyActive cfg e.type &&
    buttonOk e.type e.button &&
    e.type.isRelease &&
    !(e.type == EventType.mouseup && s.ignoreEmulatedMouseEvents)

/-- Concrete fixture mirroring the test file: region root 1 with one
descendant 2, living in document 0, with one embedded sub-document 5;
nodes 3 and 4 are outside the region. -/
def region0 : Region := { nodes := [1, 2], ownDoc := 0, frameDocs := [5] }

/-- Fixture configuration with pointer events supported. -/
def cfgP : Config := { region := region0, supportsPointer := true }

/-- Fixture configuration without pointer events (Mouse/Touch families). -/
def cfgM : Config := { region := region0, supportsPointer := false }

/-- Fixture: primary pointerdown outside the region, no button field. -/
def pdOut : InputEvent := { type := .pointerdown, target := 3, button := none, doc := 0 }

/-- Fixture: primary pointerup outside the region. -/
def puOut : InputEvent := { type := .pointerup, target := 4, button := some 0, doc := 0 }

/-- Fixture: primary pointerdown inside the region. -/
def pdIn : InputEvent := { type := .pointerdown, target := 1, button := none, doc := 0 }

/-- Fixture: primary pointerup inside the region. -/
def puIn : InputEvent := { type := .pointerup, target := 2, button := none, doc := 0 }

/-- Fixture: middle-button mousedown outside the region. -/
def mdB1 : InputEvent := { type := .mousedown, target := 3, button := some 1, doc := 0 }

/-- Fixture: middle-button mouseup outside the region. -/
def muB1 : InputEvent := { type := .mouseup, target := 3, button := some 1, doc := 0 }

/-- Fixture: primary mousedown outside the region. -/
def mdOut : InputEvent := { type := .mousedown, target := 3, button := some 0, doc := 0 }

/-- Fixture: primary mouseup outside the region. -/
def muOut : InputEvent := { type := .mouseup, target := 3, button := some 0, doc := 0 }

/-- Fixture: touchstart outside the region. -/
def tsOut : InputEvent := { type := .touchstart, target := 3, button := none, doc := 0 }

/-- Fixture: touchend outside the region. -/
def teOut : InputEvent := { type := .touchend, target := 4, button := none, doc := 0 }

/-- Fixture: the synthetic mouseup echo following `teOut`. -/
def muEm : InputEvent := { type := .mouseup, target := 4, button := none, doc := 0 }

/-- Fixture: primary pointerdown outside the region inside sub-document 5. -/
def pdFrame : InputEvent := { type := .pointerdown, target := 3, button := none, doc := 5 }

/-- Fixture: primary pointerup inside sub-document 5. -/
def puFrame : InputEvent := { type := .pointerup, target := 4, button := none, doc := 5 }

/-- Fixture: gesture state with an outside press in flight. -/
def statePressedOutside : GestureState :=
  { wasPressedOutside := some true, ignoreEmulatedMouseEvents := false }

theorem isPress_eq_false_of_isRelease (t : EventType) (h : t.isRelease = true) :
    t.isPress = false := by
  cases t <;> simp_all [EventType.isRelease, EventType.isPress]

theorem isPress_of_matchingRelease (a b : EventType) (h : matchingRelease a b = true) :
    a.isPress = true := by
  cases a <;> cases b <;> simp_all [matchingRelease, EventType.isPress]

theorem isRelease_of_matchingRelease (a b : EventType) (h : matchingRelease a b = true) :
    b.isRelease = true := by
  cases a <;> cases b <;> simp_all [matchingRelease, EventType.isRelease]

theorem familyActive_of_matchingRelease (cfg : Config) (a b : EventType)
    (h : matchingRelease a b = true) : familyActive cfg b = familyActive cfg a := by
  cases a <;> cases b <;>
    simp_all [matchingRelease, familyActive, EventType.isPointerFamily]

theorem handleEvent_qualifying_press (cfg : Config) (s : GestureState) (e : InputEvent)
    (h : isQualifyingPress cfg e = true) :
    handleEvent cfg s e
      = ({ s with wasPressedOutside := some (!(cfg.region.containsNode e.target)) }, none) := by
  simp only [isQualifyingPress, Bool.and_eq_true] at h
  obtain ⟨⟨⟨h1, h2⟩, h3⟩, h4⟩ := h
  replace h1 : e.doc ∈ cfg.region.subscribedDocs := by simpa using h1
  simp [handleEvent, h1, h2, h3, h4]

theorem handleEvent_qualifying_release (cfg : Config) (s : GestureState) (e : InputEvent)
    (h : isQualifyingRelease cfg s e = true) :
    handleEvent cfg s e
      = ({ wasPressedOutside := none,
           ignoreEmulatedMouseEvents :=
             if e.type == EventType.touchend then true
             else s.ignoreEmulatedMouseEvents },
         if s.wasPressedOutside == some true then some e else none) := by
  simp only [isQualifyingRelease, Bool.and_eq_true] at h
  obtain ⟨⟨⟨⟨h1, h2⟩, h3⟩, h4⟩, h5⟩ := h
  replace h1 : e.doc ∈ cfg.region.subscribedDocs := by simpa using h1
  have hp := isPress_eq_false_of_isRelease e.type h4
  simp only [Bool.not_eq_true'] at h5
  simp [handleEvent, h1, h2, h3, hp, h5]

theorem handleEvent_no_notify (cfg : Config) (s : GestureState) (e : InputEvent)
    (hs : (s.wasPressedOutside == some true) = false) :
    (handleEvent cfg s e).2 = none := by
  by_cases h1 : e.doc ∈ cfg.region.subscribedDocs <;>
  cases h2 : familyActive cfg e.type <;>
  cases h3 : buttonOk e.type e.button <;>
  cases h4 : e.type.isPress <;>
  cases h5 : (e.type == EventType.mouseup && s.ignoreEmulatedMouseEvents) <;>
    simp [handleEvent, h1, h2, h3, h4, h5, hs]

theorem handleEvent_release_state_of_none (cfg : Config) (s : GestureState) (e : InputEvent)
    (hs : s.wasPressedOutside = none) (he : e.type.isRelease = true) :
    (handleEvent cfg s e).1.wasPressedOutside = none := by
  have hp := isPress_eq_false_of_isRelease e.type he
  by_cases h1 : e.doc ∈ cfg.region.subscribedDocs <;>
  cases h2 : familyActive cfg e.type <;>
  cases h3 : buttonOk e.type e.button <;>
  cases h5 : (e.type == EventType.mouseup && s.ignoreEmulatedMouseEvents) <;>
    simp [handleEvent, h1, h2, h3, hp, h5, hs]

theorem nonprimary_ignored_aux (cfg : Config) (s : GestureState) (e : InputEvent)
    (ht : e.type.isTouch = false) (hb : isPrimaryButton e.button = false) :
    handleEvent cfg s e = (s, none) := by
  have hbo : buttonOk e.type e.button = false := by simp [buttonOk, ht, hb]
  by_cases h1 : e.doc ∈ cfg.region.subscribedDocs <;>
  cases h2 : familyActive cfg e.type <;>
    simp [handleEvent, h1, h2, hbo]

theorem gesture_fires_aux (cfg : Config) (p r : InputEvent)
    (hpdoc : p.doc ∈ cfg.region.subscribedDocs)
    (hpfam : familyActive cfg p.type = true)
    (hppress : p.type.isPress = true)
    (hpbtn : buttonOk p.type p.button = true)
    (hout : cfg.region.containsNode p.target = false)
    (hmatch : matchingRelease p.type r.type = true)
    (hrdoc : r.doc ∈ cfg.region.subscribedDocs)
    (hrbtn : buttonOk r.type r.button = true) :
    handleEvent cfg initState p = (statePressedOutside, none) ∧
    (handleEvent cfg statePressedOutside r).2 = some r ∧
    (processEvents cfg initState [p, r]).2 = [r] := by
  have hq1 : isQualifyingPress cfg p = true := by
    simp [isQualifyingPress, hpdoc, hpfam, hppress, hpbtn]
  have h1 : handleEvent cfg initState p = (statePressedOutside, none) := by
    rw [handleEvent_qualifying_press cfg initState p hq1]
    simp [initState, statePressedOutside, hout]
  have hrfam : familyActive cfg r.type = true := by
    rw [familyActive_of_matchingRelease cfg p.type r.type hmatch]; exact hpfam
  have hrrel := isRelease_of_matchingRelease p.type r.type hmatch
  have hq2 : isQualifyingRelease cfg statePressedOutside r = true := by
    simp [isQualifyingRelease, statePressedOutside, hrdoc, hrfam, hrbtn, hrrel]
  have h2 := handleEvent_qualifying_release cfg statePressedOutside r hq2
  have h2out : (handleEvent cfg statePressedOutside r).2 = some r := by
    rw [h2]; simp [statePressedOutside]
  exact ⟨h1, h2out, by simp [processEvents, h1, h2out]⟩

/-- C1: For every gesture consisting of a primary-button press event whose
target node is outside the region (not contained in it) followed by a
matching release event, the detector invokes the outside-interaction
callback exactly once, at the time the release is handled — the press
step itself notifies nothing — and passes it the release event: the
collected callback invocations of the two-event gesture are exactly the
one invocation carrying the release event. -/
theorem outside_press_release_fires_exactly_once
    (cfg : Config) (p r : InputEvent)
    (hpdoc : p.doc ∈ cfg.region.subscribedDocs)
    (hpfam : familyActive cfg p.type = true)
    (hppress : p.type.isPress = true)
    (hpbtn : buttonOk p.type p.button = true)
    (hout : cfg.region.containsNode p.target = false)
    (hmatch : matchingRelease p.type r.type = true)
    (hrdoc : r.doc ∈ cfg.region.subscribedDocs)
    (hrbtn : buttonOk r.type r.button = true) :
    (handleEvent cfg initState p).2 = none ∧
    (processEvents cfg initState [p, r]).2 = [r] := by
  obtain ⟨h1, _, h3⟩ :=
    gesture_fires_aux cfg p r hpdoc hpfam hppress hpbtn hout hmatch hrdoc hrbtn
  exact ⟨by rw [h1], h3⟩

/-- Witness for C1: a primary pointerdown on outside node 3 followed by a
pointerup produces exactly one callback invocation, carrying the
pointerup event. -/
theorem outside_press_release_fires_exactly_once_witness :
    (handleEvent cfgP initState pdOut).2 = none ∧
    (processEvents cfgP initState [pdOut, puOut]).2 = [puOut] :=
  outside_press_release_fires_exactly_once cfgP pdOut puOut (by decide) (by decide)
    (by decide) (by decide) (by decide) (by decide) (by decide) (by decide)

/-- C2: For every gesture whose press event targets a node inside the
region (contained in it), the callback is never invoked, regardless of
where (or with which button, or in which document) the matching release
event targets: the two-event gesture produces no callback invocation. -/
theorem inside_press_never_fires
    (cfg : Config) (p r : InputEvent)
    (hpdoc : p.doc ∈ cfg.region.subscribedDocs)
    (hpfam : familyActive cfg p.type = true)
    (hppress : p.type.isPress = true)
    (hpbtn : buttonOk p.type p.button = true)
    (hin : cfg.region.containsNode p.target = true)
    (hmatch : matchingRelease p.type r.type = true) :
    (processEvents cfg initState [p, r]).2 = [] := by
  have hq1 : isQualifyingPress cfg p = true := by
    simp [isQualifyingPress, hpdoc, hpfam, hppress, hpbtn]
  have h1 : handleEvent cfg initState p
      = ({ wasPressedOutside := some false, ignoreEmulatedMouseEvents := false }, none) := by
    rw [handleEvent_qualifying_press cfg initState p hq1]
    simp [initState, hin]
  have h2 := handleEvent_no_notify cfg
      { wasPressedOutside := some false, ignoreEmulatedMouseEvents := false } r (by decide)
  simp [processEvents, h1, h2]

/-- Witness for C2: a pointerdown on inside node 1 followed by a pointerup
on outside node 4 produces no callback invocation. -/
theorem inside_press_never_fires_witness :
    (processEvents cfgP initState [pdIn, puOut]).2 = [] :=
  inside_press_never_fires cfgP pdIn puOut (by decide) (by decide) (by decide)
    (by decide) (by decide) (by decide)

/-- C3: Whether the notification fires is decided solely by the press
location, not the release location: a primary-button press targeting a
node outside the region followed by a matching release targeting a node
inside the region still produces exactly one callback invocation. -/
theorem press_outside_release_inside_fires_once
    (cfg : Config) (p r : InputEvent)
    (hpdoc : p.doc ∈ cfg.region.subscribedDocs)
    (hpfam : familyActive cfg p.type = true)
    (hppress : p.type.isPress = true)
    (hpbtn : buttonOk p.type p.button = true)
    (hout : cfg.region.containsNode p.target = false)
    (hmatch : matchingRelease p.type r.type = true)
    (hrdoc : r.doc ∈ cfg.region.subscribedDocs)
    (hrbtn : buttonOk r.type r.button = true)
    (hrin : cfg.region.containsNode r.target = true) :
    (processEvents cfg initState [p, r]).2 = [r] :=
  (gesture_fires_aux cfg p r hpdoc hpfam hppress hpbtn hout hmatch hrdoc hrbtn).2.2

/-- Witness for C3: pointerdown on outside node 3 then pointerup on
inside node 2 fires exactly once, with the release event. -/
theorem press_outside_release_inside_fires_once_witness :
    (processEvents cfgP initState [pdOut, puIn]).2 = [puIn] :=
  press_outside_release_inside_fires_once cfgP pdOut puIn (by decide) (by decide)
    (by decide) (by decide) (by decide) (by decide) (by decide) (by decide) (by decide)

/-- C4: A release event (pointerup, mouseup or touchend) delivered while
no gesture is in flight (`wasPressedOutside` absent) is ignored: the
callback is not invoked and the gesture state stays absent — and being a
total function, the handler raises no fault. -/
theorem release_without_press_ignored
    (cfg : Config) (s : GestureState) (e : InputEvent)
    (hs : s.wasPressedOutside = none)
    (he : e.type.isRelease = true) :
    (handleEvent cfg s e).2 = none ∧
    (handleEvent cfg s e).1.wasPressedOutside = none :=
  ⟨handleEvent_no_notify cfg s e (by rw [hs]; rfl),
   handleEvent_release_state_of_none cfg s e hs he⟩

/-- Witness for C4: a pointerup delivered to a freshly attached detector
(no tracked press) invokes nothing and leaves no gesture in flight. -/
theorem release_without_press_ignored_witness :
    (handleEvent cfgP initState puOut).2 = none ∧
    (handleEvent cfgP initState puOut).1.wasPressedOutside = none :=
  release_without_press_ignored cfgP initState puOut (by decide) (by decide)

/-- C5: A pointer or mouse press or release event carrying an explicit
non-primary button index is ignored entirely: from any gesture state, the
state (including `wasPressedOutside`) is left unchanged and the callback
is not invoked; and a subsequent primary-button outside press/release
gesture starting from a fresh detector still fires exactly once. -/
theorem nonprimary_button_ignored
    (cfg : Config) (s : GestureState) (e1 e2 p r : InputEvent)
    (h1t : e1.type.isTouch = false) (h1b : isPrimaryButton e1.button = false)
    (h2t : e2.type.isTouch = false) (h2b : isPrimaryButton e2.button = false)
    (hpdoc : p.doc ∈ cfg.region.subscribedDocs)
    (hpfam : familyActive cfg p.type = true)
    (hppress : p.type.isPress = true)
    (hpbtn : buttonOk p.type p.button = true)
    (hout : cfg.region.containsNode p.target = false)
    (hmatch : matchingRelease p.type r.type = true)
    (hrdoc : r.doc ∈ cfg.region.subscribedDocs)
    (hrbtn : buttonOk r.type r.button = true) :
    handleEvent cfg s e1 = (s, none) ∧
    handleEvent cfg s e2 = (s, none) ∧
    (processEvents cfg initState [e1, e2, p, r]).2 = [r] := by
  have k1 := nonprimary_ignored_aux cfg initState e1 h1t h1b
  have k2 := nonprimary_ignored_aux cfg initState e2 h2t h2b
  obtain ⟨g1, g2, _⟩ :=
    gesture_fires_aux cfg p r hpdoc hpfam hppress hpbtn hout hmatch hrdoc hrbtn
  refine ⟨nonprimary_ignored_aux cfg s e1 h1t h1b,
          nonprimary_ignored_aux cfg s e2 h2t h2b, ?_⟩
  simp [processEvents, k1, k2, g1, g2]

/-- Witness for C5: a button-1 mousedown/mouseup pair outside the region
is ignored, and the following primary mousedown/mouseup outside gesture
fires exactly once. -/
theorem nonprimary_button_ignored_witness :
    handleEvent cfgM statePressedOutside mdB1 = (statePressedOutside, none) ∧
    handleEvent cfgM statePressedOutside muB1 = (statePressedOutside, none) ∧
    (processEvents cfgM initState [mdB1, muB1, mdOut, muOut]).2 = [muOut] :=
  nonprimary_button_ignored cfgM statePressedOutside mdB1 muB1 mdOut muOut
    (by decide) (by decide) (by decide) (by decide) (by decide) (by decide)
    (by decide) (by decide) (by decide) (by decide) (by decide) (by decide)

/-- C6: With the Mouse/Touch family pair active (pointer events not
supported), a touchstart/touchend pair targeting nodes outside the region
invokes the callback exactly once (with the touchend), leaves the
short-lived suppression marker set, and a primary mouseup observed while
that marker is active is ignored outright — the gesture flag is untouched,
only the marker is consumed, nothing is notified — so the three-event
sequence still produces exactly one invocation. -/
theorem touch_gesture_fires_once_and_emulated_mouseup_ignored
    (cfg : Config) (ts te mu : InputEvent)
    (hsp : cfg.supportsPointer = false)
    (hts : ts.type = EventType.touchstart)
    (hte : te.type = EventType.touchend)
    (hmu : mu.type = EventType.mouseup)
    (htsdoc : ts.doc ∈ cfg.region.subscribedDocs)
    (htedoc : te.doc ∈ cfg.region.subscribedDocs)
    (hmudoc : mu.doc ∈ cfg.region.subscribedDocs)
    (htsout : cfg.region.containsNode ts.target = false)
    (hteout : cfg.region.containsNode te.target = false)
    (hmubtn : isPrimaryButton mu.button = true) :
    (processEvents cfg initState [ts, te]).2 = [te] ∧
    (processEvents cfg initState [ts, te]).1
      = { wasPressedOutside := none, ignoreEmulatedMouseEvents := true } ∧
    handleEvent cfg { wasPressedOutside := none, ignoreEmulatedMouseEvents := true } mu
      = ({ wasPressedOutside := none, ignoreEmulatedMouseEvents := false }, none) ∧
    (processEvents cfg initState [ts, te, mu]).2 = [te] := by
  have h1 : handleEvent cfg initState ts = (statePressedOutside, none) := by
    have hq : isQualifyingPress cfg ts = true := by
      simp [isQualifyingPress, htsdoc, familyActive, hts, EventType.isPointerFamily,
            hsp, buttonOk, EventType.isTouch, EventType.isPress]
    rw [handleEvent_qualifying_press cfg initState ts hq]
    simp [initState, statePressedOutside, htsout]
  have h2 : handleEvent cfg statePressedOutside te
      = ({ wasPressedOutside := none, ignoreEmulatedMouseEvents := true }, some te) := by
    have hq : isQualifyingRelease cfg statePressedOutside te = true := by
      simp [isQualifyingRelease, statePressedOutside, htedoc, familyActive, hte,
            EventType.isPointerFamily, hsp, buttonOk, EventType.isTouch,
            EventType.isRelease]
    rw [handleEvent_qualifying_release cfg statePressedOutside te hq]
    simp [statePressedOutside, hte]
  have h3 : handleEvent cfg { wasPressedOutside := none, ignoreEmulatedMouseEvents := true } mu
      = ({ wasPressedOutside := none, ignoreEmulatedMouseEvents := false }, none) := by
    simp [handleEvent, hmudoc, familyActive, hmu, EventType.isPointerFamily, hsp,
          buttonOk, EventType.isTouch, hmubtn, EventType.isPress]
  refine ⟨?_, ?_, h3, ?_⟩ <;> simp [processEvents, h1, h2, h3]

/-- Witness for C6: touchstart/touchend on outside nodes fire once with
the touchend, and the emulated mouseup that follows is swallowed. -/
theorem touch_gesture_fires_once_and_emulated_mouseup_ignored_witness :
    (processEvents cfgM initState [tsOut, teOut]).2 = [teOut] ∧
    (processEvents cfgM initState [tsOut, teOut]).1
      = { wasPressedOutside := none, ignoreEmulatedMouseEvents := true } ∧
    handleEvent cfgM { wasPressedOutside := none, ignoreEmulatedMouseEvents := true } muEm
      = ({ wasPressedOutside := none, ignoreEmulatedMouseEvents := false }, none) ∧
    (processEvents cfgM initState [tsOut, teOut, muEm]).2 = [teOut] :=
  touch_gesture_fires_once_and_emulated_mouseup_ignored cfgM tsOut teOut muEm
    (by decide) (by decide) (by decide) (by decide) (by decide) (by decide)
    (by decide) (by decide) (by decide) (by decide)

/-- C7: While the enabled flag is false no dispatched event of any family
is processed — the detector is unchanged and the callback is never
invoked — and a gesture whose press occurred before the detector was
disabled never produces a callback after the detector is re-enabled:
the stale gesture is not replayed at the release. -/
theorem disabled_detector_never_fires
    (cfg : Config) (d : Detector) (es : List InputEvent) (p r : InputEvent)
    (hd : d.enabled = false)
    (hpdoc : p.doc ∈ cfg.region.subscribedDocs)
    (hpfam : familyActive cfg p.type = true)
    (hppress : p.type.isPress = true)
    (hpbtn : buttonOk p.type p.button = true)
    (hout : cfg.region.containsNode p.target = false)
    (hrrel : r.type.isRelease = true) :
    runActions cfg d (es.map DetectorAction.dispatch) = (d, []) ∧
    (runActions cfg { enabled := true, state := initState }
        [DetectorAction.dispatch p, DetectorAction.setEnabled false,
         DetectorAction.setEnabled true, DetectorAction.dispatch r]).2 = [] := by
  constructor
  · induction es with
    | nil => simp [runActions]
    | cons e es ih => simp [runActions, stepAction, hd, ih]
  · have hq1 : isQualifyingPress cfg p = true := by
      simp [isQualifyingPress, hpdoc, hpfam, hppress, hpbtn]
    have h1 := handleEvent_qualifying_press cfg initState p hq1
    have h1out : (handleEvent cfg initState p).2 = none := by rw [h1]
    have h4 := handleEvent_no_notify cfg initState r (by rfl)
    simp [runActions, stepAction, h1out, h4]

/-- Witness for C7: with the detector disabled a dispatched outside
pointerdown/pointerup pair is not processed at all, and a press that
happened before a disable/enable cycle does not fire at the later
release. -/
theorem disabled_detector_never_fires_witness :
    runActions cfgP { enabled := false, state := initState }
        ([pdOut, puOut].map DetectorAction.dispatch)
      = ({ enabled := false, state := initState }, []) ∧
    (runActions cfgP { enabled := true, state := initState }
        [DetectorAction.dispatch pdOut, DetectorAction.setEnabled false,
         DetectorAction.setEnabled true, DetectorAction.dispatch puOut]).2 = [] :=
  disabled_detector_never_fires cfgP { enabled := false, state := initState }
    [pdOut, puOut] pdOut puOut (by decide) (by decide) (by decide) (by decide)
    (by decide) (by decide) (by decide)

/-- C8: For a region whose content is rendered inside an embedded
sub-document reachable from the region's document context (a document
among the region's reachable frame documents), a primary-button press in
that sub-document on a node outside the region, followed by a matching
release in the same sub-document, invokes the callback exactly once. -/
theorem iframe_press_release_fires_once
    (cfg : Config) (d : Nat) (p r : InputEvent)
    (hframe : d ∈ cfg.region.frameDocs)
    (hpd : p.doc = d) (hrd : r.doc = d)
    (hpfam : familyActive cfg p.type = true)
    (hppress : p.type.isPress = true)
    (hpbtn : buttonOk p.type p.button = true)
    (hout : cfg.region.containsNode p.target = false)
    (hmatch : matchingRelease p.type r.type = true)
    (hrbtn : buttonOk r.type r.button = true) :
    (processEvents cfg initState [p, r]).2 = [r] := by
  have hsub : d ∈ cfg.region.subscribedDocs := by
    simp only [Region.subscribedDocs, List.mem_cons]
    exact Or.inr hframe
  have hpdoc : p.doc ∈ cfg.region.subscribedDocs := by rw [hpd]; exact hsub
  have hrdoc : r.doc ∈ cfg.region.subscribedDocs := by rw [hrd]; exact hsub
  exact (gesture_fires_aux cfg p r hpdoc hpfam hppress hpbtn hout hmatch hrdoc hrbtn).2.2

/-- Witness for C8: a pointerdown/pointerup pair in embedded sub-document
5, outside the region, fires exactly once. -/
theorem iframe_press_release_fires_once_witness :
    (processEvents cfgP initState [pdFrame, puFrame]).2 = [puFrame] :=
  iframe_press_release_fires_once cfgP 5 pdFrame puFrame (by decide) (by decide)
    (by decide) (by decide) (by decide) (by decide) (by decide) (by decide)
    (by decide)

/-- C9: Gesture-state invariant: the state holds at most one in-flight
gesture (a single optional flag); handling a qualifying press always
leaves the state set — to whether the press was outside the region — and
handling a qualifying release always leaves the state absent,
unconditionally, whether or not the release matched a tracked press. -/
theorem gesture_state_invariant (cfg : Config) (s : GestureState) (e : InputEvent) :
    (isQualifyingPress cfg e = true →
      (handleEvent cfg s e).1.wasPressedOutside
        = some (!(cfg.region.containsNode e.target))) ∧
    (isQualifyingRelease cfg s e = true →
      (handleEvent cfg s e).1.wasPressedOutside = none) := by
  constructor
  · intro h
    rw [handleEvent_qualifying_press cfg s e h]
  · intro h
    rw [handleEvent_qualifying_release cfg s e h]

/-- Witness for C9: a qualifying outside pointerdown sets the flag, and a
qualifying pointerup from the pressed-outside state clears it. -/
theorem gesture_state_invariant_witness :
    (handleEvent cfgP initState pdOut).1.wasPressedOutside
      = some (!(cfgP.region.containsNode pdOut.target)) ∧
    (handleEvent cfgP statePressedOutside puOut).1.wasPressedOutside = none :=
  ⟨(gesture_state_invariant cfgP initState pdOut).1 (by decide),
   (gesture_state_invariant cfgP statePressedOutside puOut).2 (by decide)⟩

/-- C10: A pointer or mouse press or release event that carries no button
index at all is treated exactly as a primary-button (button 0) event: the
handler produces the same gesture state as on the button-0 event and
invokes the callback exactly when the button-0 event would (the callback
argument is, as always, the handled event itself), while an event
carrying an explicit non-zero button index is ignored outright. -/
theorem absent_button_treated_as_primary
    (cfg : Config) (s : GestureState) (e : InputEvent) (k : Nat)
    (ht : e.type.isTouch = false) :
    (handleEvent cfg s { e with button := none }).1
      = (handleEvent cfg s { e with button := some 0 }).1 ∧
    (handleEvent cfg s { e with button := none }).2.isSome
      = (handleEvent cfg s { e with button := some 0 }).2.isSome ∧
    handleEvent cfg s { e with button := some (k + 1) } = (s, none) := by
  refine ⟨?_, ?_, nonprimary_ignored_aux cfg s { e with button := some (k + 1) } ht
      (by simp [isPrimaryButton])⟩ <;>
  · by_cases h1 : e.doc ∈ cfg.region.subscribedDocs <;>
    cases h2 : familyActive cfg e.type <;>
    cases h4 : e.type.isPress <;>
    cases h5 : (e.type == EventType.mouseup && s.ignoreEmulatedMouseEvents) <;>
    cases h6 : (s.wasPressedOutside == some true) <;>
      simp [handleEvent, buttonOk, isPrimaryButton, h1, h2, h4, h5, h6]

/-- Witness for C10: a mousedown with no button field behaves exactly as
one with button 0, and one with button 1 is ignored. -/
theorem absent_button_treated_as_primary_witness :
    (handleEvent cfgM statePressedOutside { mdOut with button := none }).1
      = (handleEvent cfgM statePressedOutside { mdOut with button := some 0 }).1 ∧
    (handleEvent cfgM statePressedOutside { mdOut with button := none }).2.isSome
      = (handleEvent cfgM statePressedOutside { mdOut with button := some 0 }).2.isSome ∧
    handleEvent cfgM statePressedOutside { mdOut with button := some 1 }
      = (statePressedOutside, none) :=
  absent_button_treated_as_primary cfgM statePressedOutside mdOut 0 (by decide)
